import Mathlib

/-!
Shallow embedding of the direct-messaging feature: the chat service
(saveChat, createMessage, addMessageToChat, getChat, getChatsByParticipants,
addParticipantToChat), the chat controller routes, the socket room handlers,
and the client hook useDirectMessage (handleChatUpdate, handleSendMessage).

Document ids (Mongo ObjectIds) are modelled as strings.  The database is a
record of user, message and chat document lists together with a counter that
supplies fresh ids on create.  Each service takes a `dbFail` flag modelling
the underlying database driver throwing on its first operation, which the
service's try/catch turns into an error-object return value.  The
`populateDocument` utility lives outside the provided sources, so the routes
take its result as an oracle `pop : String → ChatResponse`.
-/

namespace FakeSO

/-- A stored user document (users collection). -/
structure User where
  _id : String
  username : String
deriving DecidableEq

/-- Message payload fields, as supplied to message creation. -/
structure MessageData where
  msg : String
  msgFrom : String
  msgDateTime : Nat
  type : String
deriving DecidableEq

/-- A stored message document (messages collection). -/
structure Message where
  _id : String
  msg : String
  msgFrom : String
  msgDateTime : Nat
  type : String
deriving DecidableEq

/-- A stored chat document (chats collection): participants and message ids. -/
structure Chat where
  _id : String
  participants : List String
  messages : List String
deriving DecidableEq

/-- The database state: the three collections plus a fresh-id counter. -/
structure DbState where
  users : List User
  messages : List Message
  chats : List Chat
  nextId : Nat
deriving DecidableEq

/-- Fresh document id assigned by a create operation. -/
def freshId (n : Nat) : String :=
  "id" ++ toString n

/-- UserModel.findOne on username. -/
def findUserByUsername (db : DbState) (uname : String) : Option User :=
  db.users.find? (fun u => u.username = uname)

/-- UserModel.findById. -/
def findUserById (db : DbState) (uid : String) : Option User :=
  db.users.find? (fun u => u._id = uid)

/-- ChatModel.findById. -/
def findChatById (db : DbState) (cid : String) : Option Chat :=
  db.chats.find? (fun c => c._id = cid)

/-- ChatResponse = Chat | error object, as Except. -/
abbrev ChatResponse := Except String Chat

/-- MessageResponse = Message | error object, as Except. -/
abbrev MessageResponse := Except String Message

/-- The message-creation loop of saveChat: MessageModel.create for each
payload message in order, collecting the created ids. -/
def createMessagesLoop (db : DbState) : List MessageData → DbState × List String
  | [] => (db, [])
  | messageData :: rest =>
    let message : Message :=
      { _id := freshId db.nextId, msg := messageData.msg, msgFrom := messageData.msgFrom,
        msgDateTime := messageData.msgDateTime, type := messageData.type }
    let db1 : DbState :=
      { db with messages := db.messages ++ [message], nextId := db.nextId + 1 }
    let (db2, ids) := createMessagesLoop db1 rest
    (db2, message._id :: ids)

/-- The create-chat request payload. -/
structure CreateChatPayload where
  participants : List String
  messages : List MessageData
deriving DecidableEq

/-- chat.service saveChat: resolve each participant username to a user id
when such a user exists (otherwise keep the raw participant value), create
the payload messages, then create the chat document.  The source re-reads
the created chat by its unique _id to populate message documents; since _id
is the primary key, that re-read returns the created document, modelled
directly. -/
def saveChat (db : DbState) (dbFail : Bool) (chatPayload : CreateChatPayload) :
    DbState × ChatResponse :=
  if dbFail then
    (db, .error "Error occurred when saving chat: database error")
  else
    let participantIds := chatPayload.participants.map (fun participant =>
      match findUserByUsername db participant with
      | some user => user._id
      | none => participant)
    let (db1, messageIds) := createMessagesLoop db chatPayload.messages
    let result : Chat :=
      { _id := freshId db1.nextId, participants := participantIds, messages := messageIds }
    let db2 : DbState := { db1 with chats := db1.chats ++ [result], nextId := db1.nextId + 1 }
    (db2, .ok result)

/-- chat.service createMessage: MessageModel.create wrapped in try/catch. -/
def createMessage (db : DbState) (dbFail : Bool) (messageData : MessageData) :
    DbState × MessageResponse :=
  if dbFail then
    (db, .error "Error occurred when creating message: database error")
  else
    let result : Message :=
      { _id := freshId db.nextId, msg := messageData.msg, msgFrom := messageData.msgFrom,
        msgDateTime := messageData.msgDateTime, type := messageData.type }
    ({ db with messages := db.messages ++ [result], nextId := db.nextId + 1 }, .ok result)

/-- chat.service addMessageToChat: findByIdAndUpdate pushing the message id
onto the chat's messages ($push), returning the updated document. -/
def addMessageToChat (db : DbState) (dbFail : Bool) (chatId : String) (messageId : String) :
    DbState × ChatResponse :=
  if dbFail then
    (db, .error "Error occurred when adding message to chat: database error")
  else
    match findChatById db chatId with
    | none => (db, .error "Error occurred when adding message to chat: Chat not found or failed to update")
    | some chat =>
      let updatedChat : Chat := { chat with messages := chat.messages ++ [messageId] }
      ({ db with chats := db.chats.map (fun c => if c._id = chatId then updatedChat else c) },
       .ok updatedChat)

/-- chat.service getChat: findById, error when absent. -/
def getChat (db : DbState) (dbFail : Bool) (chatId : String) : ChatResponse :=
  if dbFail then
    .error "Error occurred when retrieving chat: database error"
  else
    match findChatById db chatId with
    | none => .error "Error occurred when retrieving chat: Chat not found"
    | some chat => .ok chat

/-- The user ids matched by the username $in query of getChatsByParticipants. -/
def matchedUsers (db : DbState) (p : List String) : List User :=
  db.users.filter (fun u => p.contains u.username)

/-- chat.service getChatsByParticipants: find users whose username is in p;
if the count differs from p's length return []; otherwise return the chats
whose participants contain all the matched user ids ($all).  Every failure
path (including a database error) returns []. -/
def getChatsByParticipants (db : DbState) (dbFail : Bool) (p : List String) : List Chat :=
  if dbFail then
    []
  else
    let users := matchedUsers db p
    if users.length ≠ p.length then
      []
    else
      let participantIds := users.map (fun u => u._id)
      db.chats.filter (fun c => participantIds.all (fun i => c.participants.contains i))

/-- chat.service addParticipantToChat: require the user to exist, then
findByIdAndUpdate with $addToSet on participants (append only when absent),
returning the updated document. -/
def addParticipantToChat (db : DbState) (dbFail : Bool) (chatId : String) (userId : String) :
    DbState × ChatResponse :=
  if dbFail then
    (db, .error "Error occurred when adding participant to chat: database error")
  else
    match findUserById db userId with
    | none => (db, .error "Error occurred when adding participant to chat: User not found")
    | some _ =>
      match findChatById db chatId with
      | none => (db, .error "Error occurred when adding participant to chat: Chat not found or failed to update")
      | some chat =>
        let updatedChat : Chat :=
          { chat with participants :=
              if chat.participants.contains userId then chat.participants
              else chat.participants ++ [userId] }
        ({ db with chats := db.chats.map (fun c => if c._id = chatId then updatedChat else c) },
         .ok updatedChat)

/-- The participants update performed by $addToSet: append the user id only
when it is not already present. -/
def addedChat (chat : Chat) (userId : String) : Chat :=
  { chat with participants :=
      if chat.participants.contains userId then chat.participants
      else chat.participants ++ [userId] }

/-! ### The chat controller routes -/

/-- A JavaScript field expected to hold an array: it may be undefined, hold a
non-array value, or hold an array. -/
inductive JsArrayField (α : Type) where
  | undef
  | notArray
  | arr (xs : List α)
deriving DecidableEq

/-- The list held by an array field (only inspected after Array.isArray). -/
def arrGet : JsArrayField α → List α
  | .arr xs => xs
  | _ => []

/-- The body of a create-chat request. -/
structure CreateChatBody where
  participants : JsArrayField String
  messages : JsArrayField MessageData
deriving DecidableEq

/-- The body of an add-message request. -/
structure AddMessageBody where
  msg : Option String
  msgFrom : Option String
  msgDateTime : Option Nat
deriving DecidableEq

/-- The body of an add-participant request. -/
structure AddParticipantBody where
  participantId : Option String
deriving DecidableEq

/-- JavaScript truthiness of an optional string (undefined and empty are falsy). -/
def strTruthy : Option String → Bool
  | none => false
  | some s => s != ""

/-- HTTP response body: a plain string or JSON of a chat / list of chats. -/
inductive ResBody where
  | msg (s : String)
  | chatJson (c : Chat)
  | chatListJson (cs : List Chat)
deriving DecidableEq

/-- An HTTP response: status code and body. -/
structure Response where
  status : Nat
  body : ResBody
deriving DecidableEq

/-- Target of a socket emit: all connected sockets, or one room. -/
inductive EmitTarget where
  | all
  | room (r : String)
deriving DecidableEq

/-- A 'chatUpdate' emission: its target, the chat payload, and the type tag. -/
structure ChatUpdateEmit where
  target : EmitTarget
  chat : Chat
  type : String
deriving DecidableEq

/-- Outcome of running a route handler: the database state after the
handler, the HTTP response, and the 'chatUpdate' emissions performed. -/
structure RouteResult where
  db : DbState
  res : Response
  emits : List ChatUpdateEmit
deriving DecidableEq

/-- Controller isCreateChatRequestValid: body defined, participants defined,
an array, and nonempty, messages defined and an array (the match collapses
the source's defined-and-isArray conjuncts into the arr case). -/
def isCreateChatRequestValid (body : Option CreateChatBody) : Bool :=
  match body with
  | none => false
  | some b =>
    match b.participants, b.messages with
    | .arr ps, .arr _ => decide (ps.length > 0)
    | _, _ => false

/-- Controller isAddMessageRequestValid: body, msg (nonempty), msgFrom,
and params.chatId (nonempty) must all be present. -/
def isAddMessageRequestValid (chatId : Option String) (body : Option AddMessageBody) : Bool :=
  match body with
  | none => false
  | some b =>
    b.msg.isSome && b.msg != some "" && b.msgFrom.isSome && chatId.isSome && chatId != some ""

/-- Controller isAddParticipantRequestValid: body, participantId, and
params.chatId (nonempty) must all be present. -/
def isAddParticipantRequestValid (chatId : Option String) (body : Option AddParticipantBody) :
    Bool :=
  match body with
  | none => false
  | some b => b.participantId.isSome && chatId.isSome && chatId != some ""

/-- Controller createChatRoute: validate, saveChat, populate the saved chat,
emit 'chatUpdate' of type 'created' to all sockets, respond 200 with the
populated chat; any error result is caught and answered with a 500. -/
def createChatRoute (db : DbState) (dbFail : Bool) (body : Option CreateChatBody)
    (pop : String → ChatResponse) : RouteResult :=
  if !(isCreateChatRequestValid body) then
    ⟨db, ⟨400, .msg "Invalid chat request body"⟩, []⟩
  else
    let b := body.getD ⟨.undef, .undef⟩
    let payload : CreateChatPayload :=
      { participants := arrGet b.participants, messages := arrGet b.messages }
    match saveChat db dbFail payload with
    | (db1, .error e) => ⟨db1, ⟨500, .msg ("Error when creating chat: " ++ e)⟩, []⟩
    | (db1, .ok result) =>
      match pop result._id with
      | .error e => ⟨db1, ⟨500, .msg ("Error when creating chat: " ++ e)⟩, []⟩
      | .ok populatedResult =>
        ⟨db1, ⟨200, .chatJson populatedResult⟩,
         [{ target := .all, chat := populatedResult, type := "created" }]⟩

/-- Controller addMessageToChatRoute: validate, createMessage with type
'direct' and msgDateTime defaulting to the current time, check the created
id, addMessageToChat, populate, emit 'chatUpdate' of type 'newMessage' to
the room named by the chat id, respond 200 with the updated chat; any error
result is caught and answered with a 500. -/
def addMessageToChatRoute (db : DbState) (cmFail amFail : Bool) (chatId : Option String)
    (body : Option AddMessageBody) (now : Nat) (pop : String → ChatResponse) : RouteResult :=
  if !(isAddMessageRequestValid chatId body) then
    ⟨db, ⟨400, .msg "Invalid message request body"⟩, []⟩
  else
    let cid := chatId.getD ""
    let b := body.getD ⟨none, none, none⟩
    let messageData : MessageData :=
      { msg := b.msg.getD "", msgFrom := b.msgFrom.getD "",
        msgDateTime := b.msgDateTime.getD now, type := "direct" }
    match createMessage db cmFail messageData with
    | (db1, .error e) => ⟨db1, ⟨500, .msg ("Error when adding message to chat: " ++ e)⟩, []⟩
    | (db1, .ok createdMessage) =>
      if createdMessage._id = "" then
        ⟨db1, ⟨500, .msg "Error when adding message to chat: Created message missing ID"⟩, []⟩
      else
        match addMessageToChat db1 amFail cid createdMessage._id with
        | (db2, .error e) => ⟨db2, ⟨500, .msg ("Error when adding message to chat: " ++ e)⟩, []⟩
        | (db2, .ok chatResult) =>
          match pop chatResult._id with
          | .error e => ⟨db2, ⟨500, .msg ("Error when adding message to chat: " ++ e)⟩, []⟩
          | .ok _ =>
            ⟨db2, ⟨200, .chatJson chatResult⟩,
             [{ target := .room cid, chat := chatResult, type := "newMessage" }]⟩

/-- Controller getChatRoute: require a chat id, getChat, populate, respond
200 with the populated chat; any error result is caught and answered with a
500. -/
def getChatRoute (db : DbState) (dbFail : Bool) (chatId : Option String)
    (pop : String → ChatResponse) : RouteResult :=
  if !(strTruthy chatId) then
    ⟨db, ⟨400, .msg "Chat ID is required"⟩, []⟩
  else
    match getChat db dbFail (chatId.getD "") with
    | .error e => ⟨db, ⟨500, .msg ("Error when retrieving chat: " ++ e)⟩, []⟩
    | .ok chatResult =>
      match pop chatResult._id with
      | .error e => ⟨db, ⟨500, .msg ("Error when retrieving chat: " ++ e)⟩, []⟩
      | .ok populatedResult => ⟨db, ⟨200, .chatJson populatedResult⟩, []⟩

/-- The populate loop of getChatsByUserRoute: populate each chat in order;
the first failure aborts the whole loop with an error. -/
def populateChatsLoop (pop : String → ChatResponse) : List Chat → Except String (List Chat)
  | [] => .ok []
  | chat :: rest =>
    match pop chat._id with
    | .error _ => .error "Failed populating chats"
    | .ok populatedChat =>
      match populateChatsLoop pop rest with
      | .error e => .error e
      | .ok populatedChats => .ok (populatedChat :: populatedChats)

/-- Controller getChatsByUserRoute: require a username, getChatsByParticipants
on the singleton list, populate every returned chat, respond 200 with the
populated list; a populate failure is caught and answered with a 500. -/
def getChatsByUserRoute (db : DbState) (dbFail : Bool) (username : Option String)
    (pop : String → ChatResponse) : RouteResult :=
  if !(strTruthy username) then
    ⟨db, ⟨400, .msg "Username is required"⟩, []⟩
  else
    let chats := getChatsByParticipants db dbFail [username.getD ""]
    match populateChatsLoop pop chats with
    | .error e => ⟨db, ⟨500, .msg ("Error retrieving chat: " ++ e)⟩, []⟩
    | .ok populatedChats => ⟨db, ⟨200, .chatListJson populatedChats⟩, []⟩

/-- Controller addParticipantToChatRoute: validate, addParticipantToChat,
respond 200 with the updated chat; any error result is caught and answered
with a 500. -/
def addParticipantToChatRoute (db : DbState) (dbFail : Bool) (chatId : Option String)
    (body : Option AddParticipantBody) : RouteResult :=
  if !(isAddParticipantRequestValid chatId body) then
    ⟨db, ⟨400, .msg "Invalid participant request body"⟩, []⟩
  else
    match addParticipantToChat db dbFail (chatId.getD "")
        ((body.getD ⟨none⟩).participantId.getD "") with
    | (db1, .error e) => ⟨db1, ⟨500, .msg ("Error when adding participant to chat: " ++ e)⟩, []⟩
    | (db1, .ok result) => ⟨db1, ⟨200, .chatJson result⟩, []⟩

/-! ### The socket connection handlers and room semantics -/

/-- The 'joinChat' handler: join the room named by the chat id when the id
is truthy (a nonempty string). -/
def joinChatHandler (joined : List String) (chatId : String) : List String :=
  if chatId != "" then chatId :: joined else joined

/-- The 'leaveChat' handler: leave the room when the id is truthy. -/
def leaveChatHandler (joined : List String) (chatId : Option String) : List String :=
  match chatId with
  | some cid => if cid != "" then joined.erase cid else joined
  | none => joined

/-- Room/broadcast delivery of the socket layer: an emit to all reaches
every connected socket; an emit to a room reaches exactly the sockets that
have joined that room. -/
def receivesEmit (joined : List String) : EmitTarget → Bool
  | .all => true
  | .room r => joined.contains r

/-! ### The client hook useDirectMessage -/

/-- A chat document as the client sees it (the fields the hook reads). -/
structure ClientChat where
  _id : Option String
  participants : List String
  messages : List String
deriving DecidableEq

/-- The hook state touched by the handlers under verification. -/
structure DMState where
  selectedChat : Option ClientChat
  chats : List ClientChat
  newMessage : String
deriving DecidableEq

/-- A 'chatUpdate' event payload as received by the client. -/
structure ChatUpdatePayload where
  chat : ClientChat
  type : String
deriving DecidableEq

/-- The hook's handleChatUpdate: on 'created' append the chat unless one
with the same _id is already listed; on 'newMessage' replace the selected
chat when its _id matches and replace the matching entries of the list;
otherwise throw. -/
def handleChatUpdate (st : DMState) (chatUpdate : ChatUpdatePayload) : Except String DMState :=
  if chatUpdate.type = "created" then
    .ok { st with chats :=
      if st.chats.any (fun existingChat => existingChat._id == chatUpdate.chat._id) then st.chats
      else st.chats ++ [chatUpdate.chat] }
  else if chatUpdate.type = "newMessage" then
    let st1 : DMState :=
      match st.selectedChat with
      | some sc =>
        if sc._id == chatUpdate.chat._id then { st with selectedChat := some chatUpdate.chat }
        else st
      | none => st
    .ok { st1 with chats :=
      st1.chats.map (fun existingChat =>
        if existingChat._id == chatUpdate.chat._id then chatUpdate.chat else existingChat) }
  else
    .error ("Invalid chatUpdate type: " ++ chatUpdate.type)

/-- JavaScript String.prototype.trim: strip whitespace from both ends. -/
def jsTrim (s : String) : String :=
  String.mk (((s.data.dropWhile Char.isWhitespace).reverse.dropWhile Char.isWhitespace).reverse)

/-- JavaScript truthiness of selectedChat?._id. -/
def selectedChatIdTruthy : Option ClientChat → Bool
  | none => false
  | some c => strTruthy c._id

/-- The message request handed to the sendMessage service. -/
structure SentRequest where
  msg : String
  msgFrom : String
  msgDateTime : Nat
deriving DecidableEq

/-- The hook's handleSendMessage: return early (no request, no state
change) when the trimmed message is empty or no truthy selected-chat id
exists; otherwise send, and on success set selectedChat to the returned
chat and clear newMessage (a thrown service error is caught and changes no
state). -/
def handleSendMessage (st : DMState) (username : String) (now : Nat)
    (svc : Except String ClientChat) : DMState × Option SentRequest :=
  if jsTrim st.newMessage = "" || !(selectedChatIdTruthy st.selectedChat) then
    (st, none)
  else
    let req : SentRequest := { msg := st.newMessage, msgFrom := username, msgDateTime := now }
    match svc with
    | .ok updatedChat =>
      ({ st with selectedChat := some updatedChat, newMessage := "" }, some req)
    | .error _ => (st, some req)

/-! ### Shared helper lemmas -/

/-- A fresh id is never the empty string. -/
theorem freshId_ne_empty (n : Nat) : freshId n ≠ "" := by
  intro h
  unfold freshId at h
  have hl := congrArg String.length h
  rw [String.length_append] at hl
  have h2 : "id".length = 2 := by decide
  have h0 : "".length = 0 := by decide
  omega

/-- The message-creation loop does not touch the chats collection. -/
theorem createMessagesLoop_chats (l : List MessageData) (db : DbState) :
    (createMessagesLoop db l).1.chats = db.chats := by
  induction l generalizing db with
  | nil => rfl
  | cons md rest ih => simpa [createMessagesLoop] using ih _

/-- The message-creation loop does not touch the users collection. -/
theorem createMessagesLoop_users (l : List MessageData) (db : DbState) :
    (createMessagesLoop db l).1.users = db.users := by
  induction l generalizing db with
  | nil => rfl
  | cons md rest ih => simpa [createMessagesLoop] using ih _

/-- A chat found by id carries that id. -/
theorem findChatById_id {db : DbState} {cid : String} {c : Chat}
    (h : findChatById db cid = some c) : c._id = cid := by
  have := List.find?_some h
  simpa using this

/-- Finding by id after replacing every chat with that id by U yields U. -/
theorem find_replace {l : List Chat} {cid : String} {chat : Chat} (U : Chat)
    (hchat : l.find? (fun c => c._id = cid) = some chat) (hU : U._id = cid) :
    (l.map (fun c => if c._id = cid then U else c)).find? (fun c => c._id = cid) = some U := by
  induction l with
  | nil => simp at hchat
  | cons a l ih =>
    by_cases ha : a._id = cid
    · simp [ha, hU]
    · rw [List.find?_cons_of_neg _ (by simpa using ha)] at hchat
      simpa [ha] using ih hchat

/-- addMessageToChat never touches the messages collection. -/
theorem addMessageToChat_fst_messages (db : DbState) (f : Bool) (cid mid : String) :
    (addMessageToChat db f cid mid).1.messages = db.messages := by
  unfold addMessageToChat
  split
  · rfl
  · split <;> rfl

/-- addParticipantToChat never touches the users collection. -/
theorem addParticipantToChat_fst_users (db : DbState) (f : Bool) (cid uid : String) :
    (addParticipantToChat db f cid uid).1.users = db.users := by
  unfold addParticipantToChat
  split
  · rfl
  · split
    · rfl
    · split <;> rfl

/-- addParticipantToChat never touches the messages collection. -/
theorem addParticipantToChat_fst_messages (db : DbState) (f : Bool) (cid uid : String) :
    (addParticipantToChat db f cid uid).1.messages = db.messages := by
  unfold addParticipantToChat
  split
  · rfl
  · split
    · rfl
    · split <;> rfl

/-- On a valid add-message request the route stores exactly one new message,
built from the request body with type 'direct' and the defaulted date. -/
theorem addMessageToChatRoute_messages_of_valid (db : DbState) (amFail : Bool)
    (chatId : Option String) (body : Option AddMessageBody) (now : Nat)
    (pop : String → ChatResponse) (h : isAddMessageRequestValid chatId body = true) :
    (addMessageToChatRoute db false amFail chatId body now pop).db.messages =
      db.messages ++ [{ _id := freshId db.nextId,
                        msg := (body.getD ⟨none, none, none⟩).msg.getD "",
                        msgFrom := (body.getD ⟨none, none, none⟩).msgFrom.getD "",
                        msgDateTime := (body.getD ⟨none, none, none⟩).msgDateTime.getD now,
                        type := "direct" }] := by
  simp only [addMessageToChatRoute, h, Bool.not_true, Bool.false_eq_true, if_false,
    createMessage, if_neg (freshId_ne_empty db.nextId)]
  split
  · rename_i db2 e heq
    have hm := congrArg (fun p => p.1.messages) heq
    simp only [addMessageToChat_fst_messages] at hm
    simpa using hm.symm
  · rename_i db2 chatResult heq
    have hm := congrArg (fun p => p.1.messages) heq
    simp only [addMessageToChat_fst_messages] at hm
    split <;> simpa using hm.symm

/-- A successful addMessageToChat returns a chat carrying the requested id. -/
theorem addMessageToChat_ok_id {db db2 : DbState} {f : Bool} {cid mid : String} {chat : Chat}
    (h : addMessageToChat db f cid mid = (db2, .ok chat)) : chat._id = cid := by
  unfold addMessageToChat at h
  split at h
  · exact absurd (congrArg (fun p => p.2) h) (by simp)
  · split at h
    · exact absurd (congrArg (fun p => p.2) h) (by simp)
    · rename_i chat0 hfind
      have h2 := congrArg (fun p => p.2) h
      simp only [Except.ok.injEq] at h2
      rw [← h2]
      have h3 := findChatById_id hfind
      exact h3

/-- On an existing user and chat, addParticipantToChat performs exactly the
$addToSet update and returns the updated chat. -/
theorem addParticipantToChat_success {db : DbState} {chatId userId : String} {u : User}
    {chat : Chat} (hu : findUserById db userId = some u)
    (hchat : findChatById db chatId = some chat) :
    addParticipantToChat db false chatId userId =
      ({ db with chats := (db.chats.map
          (fun c => if c._id = chatId then addedChat chat userId else c)) },
        .ok (addedChat chat userId)) := by
  simp [addParticipantToChat, hu, hchat, addedChat]

/-- After the $addToSet update the user id is a participant. -/
theorem addedChat_contains (chat : Chat) (userId : String) :
    (addedChat chat userId).participants.contains userId = true := by
  unfold addedChat
  by_cases h : userId ∈ chat.participants
  · simp [h]
  · simp [h]

/-- $addToSet of an already-present participant changes nothing. -/
theorem addedChat_of_contains {chat : Chat} {userId : String}
    (h : chat.participants.contains userId = true) : addedChat chat userId = chat := by
  unfold addedChat
  rw [h]
  rfl

/-- The $addToSet update is idempotent on the chat document. -/
theorem addedChat_idem (chat : Chat) (userId : String) :
    addedChat (addedChat chat userId) userId = addedChat chat userId :=
  addedChat_of_contains (addedChat_contains chat userId)

/-- Replacing every chat with a given id by U twice equals replacing once. -/
theorem map_replace_idem (l : List Chat) (cid : String) (U : Chat) (hU : U._id = cid) :
    (l.map (fun c => if c._id = cid then U else c)).map
        (fun c => if c._id = cid then U else c) =
      l.map (fun c => if c._id = cid then U else c) := by
  rw [List.map_map]
  apply List.map_congr_left
  intro a _
  by_cases ha : a._id = cid
  · simp [ha, hU]
  · simp [ha]

/-- A duplicate-free list contained in another list that misses one of its
members is strictly shorter. -/
theorem length_lt_of_nodup_subset_missing {l m : List String} (hn : l.Nodup)
    (hsub : ∀ x ∈ l, x ∈ m) (x : String) (hx : x ∈ m) (hxl : x ∉ l) :
    l.length < m.length := by
  have h1 : l.toFinset.card = l.length := List.toFinset_card_of_nodup hn
  have h2 : l.toFinset ⊆ m.toFinset := by
    intro a ha
    rw [List.mem_toFinset] at ha ⊢
    exact hsub a ha
  have h3 : l.toFinset ⊂ m.toFinset := by
    rw [Finset.ssubset_iff_of_subset h2]
    exact ⟨x, by rwa [List.mem_toFinset], by rwa [List.mem_toFinset]⟩
  have h4 := Finset.card_lt_card h3
  have h5 := m.toFinset_card_le
  omega

/-! ### Claim theorems -/

/-- Claim C5: create-chat validation fails, answering 400 with 'Invalid chat
request body' and leaving the database untouched, exactly when the body is
missing, the participants field is missing, not an array, or an empty
array, or the messages field is missing or not an array; otherwise the chat
is saved. -/
theorem C5_create_chat_validation (db : DbState) (dbFail : Bool) (body : Option CreateChatBody)
    (pop : String → ChatResponse) :
    (isCreateChatRequestValid body = false ↔
      body = none ∨ ∃ b, body = some b ∧
        (b.participants = .undef ∨ b.participants = .notArray ∨ b.participants = .arr [] ∨
          b.messages = .undef ∨ b.messages = .notArray)) ∧
    (isCreateChatRequestValid body = false →
      createChatRoute db dbFail body pop = ⟨db, ⟨400, .msg "Invalid chat request body"⟩, []⟩) ∧
    (isCreateChatRequestValid body = true → ∃ c,
      (createChatRoute db false body pop).db.chats = db.chats ++ [c]) := by
  refine ⟨?_, ?_, ?_⟩
  · cases body with
    | none => simp [isCreateChatRequestValid]
    | some b =>
      obtain ⟨p, m⟩ := b
      cases p <;> cases m <;>
        simp [isCreateChatRequestValid, List.length_eq_zero, eq_comm]
  · intro h
    simp [createChatRoute, h]
  · intro h
    simp only [createChatRoute, h, Bool.not_true, Bool.false_eq_true, if_false]
    split
    · rename_i db1 e heq
      have h2 := congrArg (fun p => p.2) heq
      simp [saveChat] at h2
    · rename_i db1 result heq
      have h1 := congrArg (fun p => p.1.chats) heq
      simp only [saveChat, Bool.false_eq_true, if_false] at h1
      rw [createMessagesLoop_chats] at h1
      split <;> exact ⟨_, h1.symm⟩

/-- Witness for C5 at concrete inputs: a missing body is rejected with 400
and no database write; a valid body leads to a saved chat. -/
theorem C5_create_chat_validation_witness :
    createChatRoute ⟨[], [], [], 0⟩ false none (fun _ => .error "e") =
      ⟨⟨[], [], [], 0⟩, ⟨400, .msg "Invalid chat request body"⟩, []⟩ ∧
    (∃ c, (createChatRoute ⟨[], [], [], 0⟩ false
        (some ⟨.arr ["alice"], .arr []⟩) (fun _ => .error "e")).db.chats = [] ++ [c]) := by
  constructor
  · exact (C5_create_chat_validation ⟨[], [], [], 0⟩ false none (fun _ => .error "e")).2.1 rfl
  · exact (C5_create_chat_validation ⟨[], [], [], 0⟩ false
      (some ⟨.arr ["alice"], .arr []⟩) (fun _ => .error "e")).2.2 rfl

/-- Claim C6: add-message validation fails, answering 400 with 'Invalid
message request body' and leaving the database untouched, exactly when the
body is missing, the message text is missing or the empty string, the
sender is missing, or the chatId parameter is missing or empty; a
whitespace-only message text passes validation and is processed. -/
theorem C6_add_message_validation (db : DbState) (cmFail amFail : Bool)
    (chatId : Option String) (body : Option AddMessageBody) (now : Nat)
    (pop : String → ChatResponse) :
    (isAddMessageRequestValid chatId body = false ↔
      body = none ∨
        (∃ b, body = some b ∧ (b.msg = none ∨ b.msg = some "" ∨ b.msgFrom = none)) ∨
        chatId = none ∨ chatId = some "") ∧
    (isAddMessageRequestValid chatId body = false →
      addMessageToChatRoute db cmFail amFail chatId body now pop =
        ⟨db, ⟨400, .msg "Invalid message request body"⟩, []⟩) ∧
    (isAddMessageRequestValid chatId body = true → ∃ m,
      (addMessageToChatRoute db false amFail chatId body now pop).db.messages =
        db.messages ++ [m]) := by
  refine ⟨?_, ?_, ?_⟩
  · cases body with
    | none => simp [isAddMessageRequestValid]
    | some b =>
      obtain ⟨mg, mf, md⟩ := b
      cases mg <;> cases mf <;> cases chatId <;>
        (simp [isAddMessageRequestValid]; try tauto)
  · intro h
    simp [addMessageToChatRoute, h]
  · intro h
    exact ⟨_, addMessageToChatRoute_messages_of_valid db amFail chatId body now pop h⟩

/-- Witness for C6 at concrete inputs: a missing body is rejected with 400
and no database write; a whitespace-only message text passes validation
and a message document is stored. -/
theorem C6_add_message_validation_witness :
    addMessageToChatRoute ⟨[], [], [], 0⟩ false false (some "c1") none 7 (fun _ => .error "e") =
      ⟨⟨[], [], [], 0⟩, ⟨400, .msg "Invalid message request body"⟩, []⟩ ∧
    isAddMessageRequestValid (some "c1") (some ⟨some "   ", some "alice", none⟩) = true ∧
    (∃ m, (addMessageToChatRoute ⟨[], [], [], 0⟩ false false (some "c1")
        (some ⟨some "   ", some "alice", none⟩) 7 (fun _ => .error "e")).db.messages =
      [] ++ [m]) := by
  refine ⟨?_, rfl, ?_⟩
  · exact (C6_add_message_validation ⟨[], [], [], 0⟩ false false (some "c1") none 7
      (fun _ => .error "e")).2.1 rfl
  · exact (C6_add_message_validation ⟨[], [], [], 0⟩ false false (some "c1")
      (some ⟨some "   ", some "alice", none⟩) 7 (fun _ => .error "e")).2.2 rfl

/-- Claim C7: every message created through the add-message route is stored
with type 'direct', the given message text and sender, and a msgDateTime
equal to the supplied value when present and otherwise the current time. -/
theorem C7_message_fields (db : DbState) (amFail : Bool) (chatId : Option String)
    (b : AddMessageBody) (now : Nat) (pop : String → ChatResponse)
    (hval : isAddMessageRequestValid chatId (some b) = true) :
    (addMessageToChatRoute db false amFail chatId (some b) now pop).db.messages =
      db.messages ++ [{ _id := freshId db.nextId,
                        msg := b.msg.getD "",
                        msgFrom := b.msgFrom.getD "",
                        msgDateTime := b.msgDateTime.getD now,
                        type := "direct" }] ∧
    (∀ s, b.msg = some s → b.msg.getD "" = s) ∧
    (∀ s, b.msgFrom = some s → b.msgFrom.getD "" = s) ∧
    (∀ t, b.msgDateTime = some t → b.msgDateTime.getD now = t) ∧
    (b.msgDateTime = none → b.msgDateTime.getD now = now) := by
  refine ⟨addMessageToChatRoute_messages_of_valid db amFail chatId (some b) now pop hval,
    ?_, ?_, ?_, ?_⟩
  · intro s hs
    rw [hs]
    rfl
  · intro s hs
    rw [hs]
    rfl
  · intro t ht
    rw [ht]
    rfl
  · intro ht
    rw [ht]
    rfl

/-- Witness for C7 at concrete inputs: a message with a supplied date is
stored with that date; one without is stored with the processing time. -/
theorem C7_message_fields_witness :
    (addMessageToChatRoute ⟨[], [], [], 0⟩ false false (some "c1")
        (some ⟨some "hi", some "alice", some 42⟩) 7 (fun _ => .error "e")).db.messages =
      [] ++ [{ _id := freshId 0, msg := "hi", msgFrom := "alice", msgDateTime := 42,
               type := "direct" }] ∧
    (addMessageToChatRoute ⟨[], [], [], 0⟩ false false (some "c1")
        (some ⟨some "hi", some "alice", none⟩) 7 (fun _ => .error "e")).db.messages =
      [] ++ [{ _id := freshId 0, msg := "hi", msgFrom := "alice", msgDateTime := 7,
               type := "direct" }] := by
  constructor
  · exact (C7_message_fields ⟨[], [], [], 0⟩ false (some "c1")
      ⟨some "hi", some "alice", some 42⟩ 7 (fun _ => .error "e") rfl).1
  · exact (C7_message_fields ⟨[], [], [], 0⟩ false (some "c1")
      ⟨some "hi", some "alice", none⟩ 7 (fun _ => .error "e") rfl).1

/-- Claim C4: client state reconciliation on a 'chatUpdate' event: for type
'created' the chat is appended to the chats list only if no chat with the
same _id is already present (otherwise the list is unchanged); for type
'newMessage' the selected chat is replaced exactly when its _id equals the
update's chat _id, and in the chats list only the entries with that _id are
replaced while every other entry is unchanged; for any other type the
handler throws an error. -/
theorem C4_handleChatUpdate_reconciliation (st : DMState) (cu : ChatUpdatePayload) :
    (cu.type = "created" →
      ((∃ c ∈ st.chats, c._id = cu.chat._id) → handleChatUpdate st cu = .ok st) ∧
      ((∀ c ∈ st.chats, c._id ≠ cu.chat._id) →
        handleChatUpdate st cu = .ok { st with chats := st.chats ++ [cu.chat] })) ∧
    (cu.type = "newMessage" →
      ∃ st', handleChatUpdate st cu = .ok st' ∧
        (∀ sc, st.selectedChat = some sc →
          st'.selectedChat = if sc._id = cu.chat._id then some cu.chat else some sc) ∧
        (st.selectedChat = none → st'.selectedChat = none) ∧
        st'.chats.length = st.chats.length ∧
        (∀ (i : Nat) (ec : ClientChat), st.chats[i]? = some ec →
          st'.chats[i]? = some (if ec._id = cu.chat._id then cu.chat else ec)) ∧
        st'.newMessage = st.newMessage) ∧
    (cu.type ≠ "created" → cu.type ≠ "newMessage" →
      ∃ e, handleChatUpdate st cu = .error e) := by
  refine ⟨?_, ?_, ?_⟩
  · intro hty
    constructor
    · rintro ⟨c, hc, hid⟩
      have hany : st.chats.any (fun ec => ec._id == cu.chat._id) = true :=
        List.any_eq_true.mpr ⟨c, hc, by simp [hid]⟩
      simp [handleChatUpdate, hty, hany]
    · intro hnone
      have hany : st.chats.any (fun ec => ec._id == cu.chat._id) = false := by
        simp only [List.any_eq_false]
        intro c hc
        simp [hnone c hc]
      simp [handleChatUpdate, hty, hany]
  · intro hty
    have hstep : handleChatUpdate st cu = .ok
        { st with
          selectedChat := (match st.selectedChat with
            | some sc => if sc._id == cu.chat._id then some cu.chat else some sc
            | none => none),
          chats := (st.chats.map
            (fun ec => if ec._id == cu.chat._id then cu.chat else ec)) } := by
      have hne : cu.type ≠ "created" := by rw [hty]; decide
      cases hsel : st.selectedChat with
      | none => simp [handleChatUpdate, hty, hne, hsel]
      | some sc =>
        by_cases hid : (sc._id == cu.chat._id) = true
        · simp [handleChatUpdate, hty, hne, hsel, hid]
        · simp [handleChatUpdate, hty, hne, hsel, hid]
    refine ⟨_, hstep, ?_, ?_, ?_, ?_, ?_⟩
    · intro sc h
      rw [h]
      by_cases hid : sc._id = cu.chat._id <;> simp [hid]
    · intro h
      simp [h]
    · simp
    · intro i ec hi
      simp [List.getElem?_map, hi]
    · rfl
  · intro h1 h2
    exact ⟨"Invalid chatUpdate type: " ++ cu.type, by simp [handleChatUpdate, h1, h2]⟩

/-- Witness for C4 at concrete inputs: an unknown type throws, a duplicate
'created' update leaves the list unchanged, and a 'newMessage' update is
handled. -/
theorem C4_handleChatUpdate_reconciliation_witness :
    (∃ e, handleChatUpdate ⟨none, [], ""⟩ ⟨⟨some "c1", [], []⟩, "bogus"⟩ = .error e) ∧
    handleChatUpdate ⟨none, [⟨some "c1", [], []⟩], ""⟩ ⟨⟨some "c1", ["u"], []⟩, "created"⟩ =
      .ok ⟨none, [⟨some "c1", [], []⟩], ""⟩ ∧
    (∃ st', handleChatUpdate ⟨some ⟨some "c1", [], []⟩, [⟨some "c1", [], []⟩], "x"⟩
        ⟨⟨some "c1", [], ["m"]⟩, "newMessage"⟩ = .ok st') := by
  refine ⟨?_, ?_, ?_⟩
  · exact (C4_handleChatUpdate_reconciliation _ _).2.2 (by decide) (by decide)
  · exact ((C4_handleChatUpdate_reconciliation _ _).1 rfl).1 ⟨⟨some "c1", [], []⟩, by simp, rfl⟩
  · obtain ⟨st', h, _⟩ :=
      (C4_handleChatUpdate_reconciliation ⟨some ⟨some "c1", [], []⟩, [⟨some "c1", [], []⟩], "x"⟩
        ⟨⟨some "c1", [], ["m"]⟩, "newMessage"⟩).2.1 rfl
    exact ⟨st', h⟩

/-- Claim C10: handleSendMessage sends nothing and leaves the hook state
unchanged whenever the trimmed message text is empty or no chat with an _id
is selected; on a successful send, selectedChat becomes the chat returned
by the service, newMessage is cleared, and chats is untouched. -/
theorem C10_handleSendMessage_frame (st : DMState) (username : String) (now : Nat)
    (svc : Except String ClientChat) :
    ((jsTrim st.newMessage = "" ∨ st.selectedChat = none ∨
        (∃ c, st.selectedChat = some c ∧ c._id = none)) →
      handleSendMessage st username now svc = (st, none)) ∧
    (jsTrim st.newMessage ≠ "" → selectedChatIdTruthy st.selectedChat = true →
      ∀ c, svc = .ok c →
        handleSendMessage st username now svc =
          ({ st with selectedChat := some c, newMessage := "" },
            some { msg := st.newMessage, msgFrom := username, msgDateTime := now })) := by
  constructor
  · rintro (h | h | ⟨c, hc, hid⟩)
    · simp [handleSendMessage, h]
    · simp [handleSendMessage, selectedChatIdTruthy, h]
    · simp [handleSendMessage, selectedChatIdTruthy, hc, hid, strTruthy]
  · intro ht hsel c hsvc
    simp [handleSendMessage, ht, hsel, hsvc]

/-- Witness for C10 at concrete inputs: no selected chat means no send and
no state change; a successful send updates selectedChat and clears the
message text. -/
theorem C10_handleSendMessage_frame_witness :
    handleSendMessage ⟨none, [], "hi"⟩ "alice" 5 (.ok ⟨some "c1", [], []⟩) =
      (⟨none, [], "hi"⟩, none) ∧
    handleSendMessage ⟨some ⟨some "c1", [], []⟩, [], "hi"⟩ "alice" 5
        (.ok ⟨some "c1", [], ["m"]⟩) =
      (⟨some ⟨some "c1", [], ["m"]⟩, [], ""⟩, some ⟨"hi", "alice", 5⟩) := by
  constructor
  · exact (C10_handleSendMessage_frame _ _ _ _).1 (Or.inr (Or.inl rfl))
  · exact (C10_handleSendMessage_frame _ _ _ _).2 (by decide) (by decide) _ rfl

/-- Claim C1: chat-update propagation is room-based: a successful
add-message route emits the 'chatUpdate' event with type 'newMessage' only
to the room named by that chat's id (the id under which sockets join via a
truthy 'joinChat'), while a successful create-chat route emits with type
'created' to all connected sockets, not to a room. -/
theorem C1_room_based_propagation
    (db : DbState) (dbFail : Bool) (body : Option CreateChatBody)
    (cmFail amFail : Bool) (chatId : Option String) (mbody : Option AddMessageBody)
    (now : Nat) (pop pop2 : String → ChatResponse) (joined : List String) (r : String) :
    ((createChatRoute db dbFail body pop).res.status = 200 →
      ∃ c, (createChatRoute db dbFail body pop).emits =
        [{ target := .all, chat := c, type := "created" }]) ∧
    ((addMessageToChatRoute db cmFail amFail chatId mbody now pop2).res.status = 200 →
      ∃ c, (addMessageToChatRoute db cmFail amFail chatId mbody now pop2).emits =
          [{ target := .room (chatId.getD ""), chat := c, type := "newMessage" }] ∧
        c._id = chatId.getD "") ∧
    receivesEmit joined .all = true ∧
    (receivesEmit joined (.room r) = true ↔ r ∈ joined) ∧
    (r ≠ "" → joinChatHandler joined r = r :: joined) ∧
    joinChatHandler joined "" = joined := by
  refine ⟨?_, ?_, ?_, ?_, ?_, ?_⟩
  · simp only [createChatRoute]
    split
    · intro h200
      simp at h200
    · split
      · intro h200
        simp at h200
      · split
        · intro h200
          simp at h200
        · intro _
          exact ⟨_, rfl⟩
  · simp only [addMessageToChatRoute]
    split
    · intro h200
      simp at h200
    · split
      · intro h200
        simp at h200
      · split
        · intro h200
          simp at h200
        · split
          · intro h200
            simp at h200
          · rename_i db2 chatResult heq
            split
            · intro h200
              simp at h200
            · intro _
              exact ⟨_, rfl, addMessageToChat_ok_id heq⟩
  · rfl
  · simp [receivesEmit]
  · intro hr
    simp [joinChatHandler, hr]
  · rfl

/-- Witness for C1 at concrete inputs: a successful create emits to all, a
successful add-message emits to the chat's room, and the join handler adds
the nonempty room name. -/
theorem C1_room_based_propagation_witness :
    (∃ c, (createChatRoute ⟨[], [], [], 0⟩ false (some ⟨.arr ["alice"], .arr []⟩)
        (fun _ => .ok ⟨"c", [], []⟩)).emits =
      [{ target := .all, chat := c, type := "created" }]) ∧
    (∃ c, (addMessageToChatRoute ⟨[], [], [⟨"c1", [], []⟩], 5⟩ false false (some "c1")
        (some ⟨some "hi", some "a", none⟩) 7 (fun _ => .ok ⟨"c", [], []⟩)).emits =
        [{ target := .room "c1", chat := c, type := "newMessage" }] ∧ c._id = "c1") ∧
    joinChatHandler [] "c1" = ["c1"] := by
  refine ⟨?_, ?_, ?_⟩
  · exact (C1_room_based_propagation ⟨[], [], [], 0⟩ false (some ⟨.arr ["alice"], .arr []⟩)
      false false none none 0 (fun _ => .ok ⟨"c", [], []⟩) (fun _ => .ok ⟨"c", [], []⟩)
      [] "x").1 (by decide)
  · exact (C1_room_based_propagation ⟨[], [], [⟨"c1", [], []⟩], 5⟩ false none
      false false (some "c1") (some ⟨some "hi", some "a", none⟩) 7
      (fun _ => .ok ⟨"c", [], []⟩) (fun _ => .ok ⟨"c", [], []⟩) [] "x").2.1 (by decide)
  · exact (C1_room_based_propagation ⟨[], [], [], 0⟩ false none false false none none 0
      (fun _ => .ok ⟨"c", [], []⟩) (fun _ => .ok ⟨"c", [], []⟩) [] "c1").2.2.2.2.1
      (by decide)

/-- Claim C3: on every chat route, whenever an underlying service or
populate call yields an error value or throws, the route responds with
status 500 and a string message; in particular a nonexistent chat id on the
get-chat route yields 500, not 404. -/
theorem C3_errors_surface_as_500
    (db : DbState) (body : Option CreateChatBody) (mbody : Option AddMessageBody)
    (pbody : Option AddParticipantBody) (chatId username : Option String)
    (now : Nat) (pop : String → ChatResponse) (e : String) :
    (isCreateChatRequestValid body = true →
      (∃ s, (createChatRoute db true body pop).res = ⟨500, .msg s⟩) ∧
      (∃ s, (createChatRoute db false body (fun _ => .error e)).res = ⟨500, .msg s⟩)) ∧
    (isAddMessageRequestValid chatId mbody = true →
      (∃ s, (addMessageToChatRoute db true false chatId mbody now pop).res = ⟨500, .msg s⟩) ∧
      (∃ s, (addMessageToChatRoute db false true chatId mbody now pop).res = ⟨500, .msg s⟩) ∧
      (∃ s, (addMessageToChatRoute db false false chatId mbody now
        (fun _ => .error e)).res = ⟨500, .msg s⟩)) ∧
    (strTruthy chatId = true →
      (∃ s, (getChatRoute db true chatId pop).res = ⟨500, .msg s⟩) ∧
      (findChatById db (chatId.getD "") = none →
        ∃ s, (getChatRoute db false chatId pop).res = ⟨500, .msg s⟩) ∧
      (∃ s, (getChatRoute db false chatId (fun _ => .error e)).res = ⟨500, .msg s⟩)) ∧
    (strTruthy username = true →
      getChatsByParticipants db false [username.getD ""] ≠ [] →
      ∃ s, (getChatsByUserRoute db false username (fun _ => .error e)).res = ⟨500, .msg s⟩) ∧
    (isAddParticipantRequestValid chatId pbody = true →
      (∃ s, (addParticipantToChatRoute db true chatId pbody).res = ⟨500, .msg s⟩) ∧
      (findUserById db ((pbody.getD ⟨none⟩).participantId.getD "") = none →
        ∃ s, (addParticipantToChatRoute db false chatId pbody).res = ⟨500, .msg s⟩) ∧
      (findChatById db (chatId.getD "") = none →
        ∃ s, (addParticipantToChatRoute db false chatId pbody).res = ⟨500, .msg s⟩)) := by
  refine ⟨?_, ?_, ?_, ?_, ?_⟩
  · intro h
    constructor
    · simp [createChatRoute, h, saveChat]
    · simp [createChatRoute, h, saveChat]
  · intro h
    refine ⟨?_, ?_, ?_⟩
    · simp [addMessageToChatRoute, h, createMessage]
    · simp only [addMessageToChatRoute, h, Bool.not_true, Bool.false_eq_true, if_false,
        createMessage, if_neg (freshId_ne_empty db.nextId)]
      simp [addMessageToChat]
    · simp only [addMessageToChatRoute, h, Bool.not_true, Bool.false_eq_true, if_false,
        createMessage, if_neg (freshId_ne_empty db.nextId)]
      split
      · simp
      · simp
  · intro h
    refine ⟨?_, ?_, ?_⟩
    · simp [getChatRoute, h, getChat]
    · intro hfind
      simp [getChatRoute, h, getChat, hfind]
    · simp only [getChatRoute, h, Bool.not_true, Bool.false_eq_true, if_false]
      split
      · simp
      · simp
  · intro h hne
    rcases hc : getChatsByParticipants db false [username.getD ""] with _ | ⟨a, l⟩
    · exact absurd hc hne
    · simp only [getChatsByUserRoute, h, Bool.not_true, Bool.false_eq_true, if_false, hc,
        populateChatsLoop]
      simp
  · intro h
    refine ⟨?_, ?_, ?_⟩
    · simp [addParticipantToChatRoute, h, addParticipantToChat]
    · intro hfind
      simp [addParticipantToChatRoute, h, addParticipantToChat, hfind]
    · intro hfind
      simp only [addParticipantToChatRoute, h, Bool.not_true, Bool.false_eq_true, if_false,
        addParticipantToChat]
      split
      · simp
      · rename_i db1 result heq
        rcases hu : findUserById db ((pbody.getD ⟨none⟩).participantId.getD "") with _ | u
        · rw [hu] at heq
          simp at heq
        · rw [hu, hfind] at heq
          simp at heq

/-- Witness for C3 at concrete inputs: a database failure during create, a
nonexistent chat id on get-chat, a missing user on add-participant, a
populate failure on get-chats-by-user, and a failing chat update on
add-message all yield 500 responses. -/
theorem C3_errors_surface_as_500_witness :
    (∃ s, (createChatRoute ⟨[], [], [], 0⟩ true (some ⟨.arr ["a"], .arr []⟩)
      (fun _ => .ok ⟨"c", [], []⟩)).res = ⟨500, .msg s⟩) ∧
    (∃ s, (getChatRoute ⟨[], [], [], 0⟩ false (some "nope")
      (fun _ => .ok ⟨"c", [], []⟩)).res = ⟨500, .msg s⟩) ∧
    (∃ s, (addParticipantToChatRoute ⟨[], [], [], 0⟩ false (some "c1")
      (some ⟨some "u1"⟩)).res = ⟨500, .msg s⟩) ∧
    (∃ s, (getChatsByUserRoute ⟨[⟨"u1", "alice"⟩], [], [⟨"c1", ["u1"], []⟩], 9⟩ false
      (some "alice") (fun _ => .error "boom")).res = ⟨500, .msg s⟩) ∧
    (∃ s, (addMessageToChatRoute ⟨[], [], [], 0⟩ false true (some "c1")
      (some ⟨some "hi", some "a", none⟩) 7 (fun _ => .ok ⟨"c", [], []⟩)).res =
      ⟨500, .msg s⟩) := by
  refine ⟨?_, ?_, ?_, ?_, ?_⟩
  · exact ((C3_errors_surface_as_500 ⟨[], [], [], 0⟩ (some ⟨.arr ["a"], .arr []⟩) none none
      none none 0 (fun _ => .ok ⟨"c", [], []⟩) "e").1 rfl).1
  · exact (((C3_errors_surface_as_500 ⟨[], [], [], 0⟩ none none none (some "nope") none 0
      (fun _ => .ok ⟨"c", [], []⟩) "e").2.2.1 rfl).2.1 (by decide))
  · exact (((C3_errors_surface_as_500 ⟨[], [], [], 0⟩ none none (some ⟨some "u1"⟩)
      (some "c1") none 0 (fun _ => .ok ⟨"c", [], []⟩) "e").2.2.2.2 rfl).2.1 (by decide))
  · exact ((C3_errors_surface_as_500 ⟨[⟨"u1", "alice"⟩], [], [⟨"c1", ["u1"], []⟩], 9⟩ none
      none none none (some "alice") 0 (fun _ => .ok ⟨"c", [], []⟩) "boom").2.2.2.1
      (by decide) (by decide))
  · exact (((C3_errors_surface_as_500 ⟨[], [], [], 0⟩ none
      (some ⟨some "hi", some "a", none⟩) none (some "c1") none 7
      (fun _ => .ok ⟨"c", [], []⟩) "e").2.1 rfl).2.1)

/-- Claim C9: addParticipantToChat is idempotent on the participants list:
adding an already-present user id leaves the participants list unchanged
(the update is set-insertion), running the operation twice yields the same
state and result as running it once, and the chat's messages are unchanged
in every case. -/
theorem C9_addParticipantToChat_idempotent (db : DbState) (chatId userId : String) :
    (∀ u chat, findUserById db userId = some u → findChatById db chatId = some chat →
      chat.participants.contains userId = true →
      (addParticipantToChat db false chatId userId).2 = .ok chat) ∧
    (addParticipantToChat (addParticipantToChat db false chatId userId).1 false chatId userId =
      addParticipantToChat db false chatId userId) ∧
    (∀ c, (addParticipantToChat db false chatId userId).2 = .ok c →
      ∃ chat, findChatById db chatId = some chat ∧ c.messages = chat.messages) ∧
    (addParticipantToChat db false chatId userId).1.messages = db.messages := by
  refine ⟨?_, ?_, ?_, addParticipantToChat_fst_messages db false chatId userId⟩
  · intro u chat hu hchat hmem
    rw [addParticipantToChat_success hu hchat]
    rw [addedChat_of_contains hmem]
  · rcases hu : findUserById db userId with _ | u
    · simp [addParticipantToChat, hu]
    · rcases hchat : findChatById db chatId with _ | chat
      · simp [addParticipantToChat, hu, hchat]
      · have hid := findChatById_id hchat
        have hU : (addedChat chat userId)._id = chatId := hid
        have hstep := addParticipantToChat_success hu hchat
        rw [hstep]
        have hchat2 : findChatById
            ({ db with chats := (db.chats.map
              (fun c => if c._id = chatId then addedChat chat userId else c)) }) chatId =
            some (addedChat chat userId) :=
          find_replace (addedChat chat userId) hchat hU
        have hu2 : findUserById
            ({ db with chats := (db.chats.map
              (fun c => if c._id = chatId then addedChat chat userId else c)) }) userId =
            some u := hu
        rw [addParticipantToChat_success hu2 hchat2]
        rw [addedChat_idem]
        rw [map_replace_idem db.chats chatId (addedChat chat userId) hU]
  · intro c hc
    rcases hu : findUserById db userId with _ | u
    · simp [addParticipantToChat, hu] at hc
    · rcases hchat : findChatById db chatId with _ | chat
      · simp [addParticipantToChat, hu, hchat] at hc
      · rw [addParticipantToChat_success hu hchat] at hc
        simp only [Except.ok.injEq] at hc
        refine ⟨chat, rfl, ?_⟩
        rw [← hc]
        rfl

/-- Witness for C9 at concrete inputs: adding a user already in the chat
returns the chat unchanged, the operation is idempotent, and messages are
untouched. -/
theorem C9_addParticipantToChat_idempotent_witness :
    (addParticipantToChat ⟨[⟨"u1", "alice"⟩], [], [⟨"c1", ["u1"], ["m1"]⟩], 9⟩ false
      "c1" "u1").2 = .ok ⟨"c1", ["u1"], ["m1"]⟩ ∧
    (addParticipantToChat
      (addParticipantToChat ⟨[⟨"u1", "alice"⟩], [], [⟨"c1", ["u2"], []⟩], 9⟩ false
        "c1" "u1").1 false "c1" "u1" =
      addParticipantToChat ⟨[⟨"u1", "alice"⟩], [], [⟨"c1", ["u2"], []⟩], 9⟩ false
        "c1" "u1") ∧
    (∃ chat, findChatById ⟨[⟨"u1", "alice"⟩], [], [⟨"c1", ["u2"], ["m1"]⟩], 9⟩ "c1" =
      some chat ∧ (⟨"c1", ["u2", "u1"], ["m1"]⟩ : Chat).messages = chat.messages) := by
  refine ⟨?_, ?_, ?_⟩
  · exact (C9_addParticipantToChat_idempotent ⟨[⟨"u1", "alice"⟩], [], [⟨"c1", ["u1"], ["m1"]⟩], 9⟩
      "c1" "u1").1 ⟨"u1", "alice"⟩ ⟨"c1", ["u1"], ["m1"]⟩ rfl rfl rfl
  · exact (C9_addParticipantToChat_idempotent ⟨[⟨"u1", "alice"⟩], [], [⟨"c1", ["u2"], []⟩], 9⟩
      "c1" "u1").2.1
  · exact (C9_addParticipantToChat_idempotent ⟨[⟨"u1", "alice"⟩], [], [⟨"c1", ["u2"], ["m1"]⟩], 9⟩
      "c1" "u1").2.2.1 ⟨"c1", ["u2", "u1"], ["m1"]⟩ rfl

/-- Claim C8: getChatsByParticipants is total and never returns an error
value: it returns the empty list on a database error, whenever some
username in the list has no user document (given the schema's unique
usernames), and whenever no chat matches all the resolved user ids. -/
theorem C8_getChatsByParticipants_total (db : DbState) (dbFail : Bool) (p : List String) :
    getChatsByParticipants db true p = [] ∧
    ((db.users.map (fun u => u.username)).Nodup →
      (∃ u ∈ p, ∀ user ∈ db.users, user.username ≠ u) →
      getChatsByParticipants db dbFail p = []) ∧
    ((∀ c ∈ db.chats,
        ¬ ((matchedUsers db p).map (fun u => u._id)).all
          (fun i => c.participants.contains i) = true) →
      getChatsByParticipants db dbFail p = []) := by
  refine ⟨rfl, ?_, ?_⟩
  · rintro hnodup ⟨u, hu, habs⟩
    cases dbFail with
    | true => rfl
    | false =>
      have hn2 : ((matchedUsers db p).map (fun x => x.username)).Nodup :=
        List.Nodup.sublist (List.Sublist.map _ (List.filter_sublist _)) hnodup
      have hsub : ∀ x ∈ (matchedUsers db p).map (fun x => x.username), x ∈ p := by
        intro x hx
        rw [List.mem_map] at hx
        obtain ⟨user, huser, rfl⟩ := hx
        rw [matchedUsers, List.mem_filter] at huser
        have := huser.2
        simpa using this
      have hxl : u ∉ (matchedUsers db p).map (fun x => x.username) := by
        intro hmem
        rw [List.mem_map] at hmem
        obtain ⟨user, huser, heq⟩ := hmem
        rw [matchedUsers, List.mem_filter] at huser
        exact habs user huser.1 heq
      have hlt := length_lt_of_nodup_subset_missing hn2 hsub u hu hxl
      rw [List.length_map] at hlt
      have hne : (matchedUsers db p).length ≠ p.length := Nat.ne_of_lt hlt
      simp [getChatsByParticipants, hne]
  · intro hall
    cases dbFail with
    | true => rfl
    | false =>
      simp only [getChatsByParticipants, Bool.false_eq_true, if_false]
      split
      · rfl
      · rw [List.filter_eq_nil_iff]
        exact hall

/-- Witness for C8 at concrete inputs: a database error, a username with no
user document, and a database with no matching chat all produce []. -/
theorem C8_getChatsByParticipants_total_witness :
    getChatsByParticipants ⟨[⟨"u1", "alice"⟩], [], [⟨"c1", ["u1"], []⟩], 9⟩ true ["alice"] = [] ∧
    getChatsByParticipants ⟨[⟨"u1", "alice"⟩], [], [⟨"c1", ["u1"], []⟩], 9⟩ false
      ["alice", "bob"] = [] ∧
    getChatsByParticipants ⟨[⟨"u1", "alice"⟩], [], [⟨"c1", ["u2"], []⟩], 9⟩ false
      ["alice"] = [] := by
  refine ⟨?_, ?_, ?_⟩
  · exact (C8_getChatsByParticipants_total ⟨[⟨"u1", "alice"⟩], [], [⟨"c1", ["u1"], []⟩], 9⟩
      true ["alice"]).1
  · exact (C8_getChatsByParticipants_total ⟨[⟨"u1", "alice"⟩], [], [⟨"c1", ["u1"], []⟩], 9⟩
      false ["alice", "bob"]).2.1 (by decide) ⟨"bob", by decide, by decide⟩
  · exact (C8_getChatsByParticipants_total ⟨[⟨"u1", "alice"⟩], [], [⟨"c1", ["u2"], []⟩], 9⟩
      false ["alice"]).2.2 (by decide)

/-- Counterexample for C2: saveChat saves a chat whose participant entry
'alice' references no user document at all (the users collection is empty),
so referential existence fails for saveChat. -/
theorem C2_referential_existence_counterexample :
    (saveChat ⟨[], [], [], 0⟩ false ⟨["alice"], []⟩).2 = .ok ⟨freshId 0, ["alice"], []⟩ ∧
    "alice" ∈ (⟨freshId 0, ["alice"], []⟩ : Chat).participants ∧
    (saveChat ⟨[], [], [], 0⟩ false ⟨["alice"], []⟩).1.users = [] := by
  refine ⟨rfl, by decide, rfl⟩

/-- Claim C2 (amended): saveChat stores, for each participant, the _id of
an existing user with that username when one exists, and otherwise stores
the raw participant value unchanged; addParticipantToChat returns an error
without updating anything when the given user id does not exist. -/
theorem C2_participants_resolution (db : DbState) (payload : CreateChatPayload)
    (chat : Chat) (uid cid : String) :
    ((saveChat db false payload).2 = .ok chat →
      chat.participants.length = payload.participants.length ∧
      ∀ (i : Nat) (part : String), payload.participants[i]? = some part →
        ((∃ u, u ∈ db.users ∧ u.username = part ∧ chat.participants[i]? = some u._id) ∨
          ((∀ u ∈ db.users, u.username ≠ part) ∧ chat.participants[i]? = some part))) ∧
    (findUserById db uid = none →
      (addParticipantToChat db false cid uid).1 = db ∧
      ∃ e, (addParticipantToChat db false cid uid).2 = .error e) := by
  constructor
  · intro h
    simp only [saveChat, Bool.false_eq_true, if_false] at h
    have hch : chat.participants = payload.participants.map (fun participant =>
        match findUserByUsername db participant with
        | some user => user._id
        | none => participant) := by
      have h2 := congrArg Chat.participants (Except.ok.inj h)
      exact h2.symm
    constructor
    · rw [hch]
      exact List.length_map _ _
    · intro i part hi
      rw [hch, List.getElem?_map, hi]
      rcases hfu : findUserByUsername db part with _ | u
      · right
        constructor
        · intro u hu
          have := List.find?_eq_none.mp hfu u hu
          simpa using this
        · simp [hfu]
      · left
        refine ⟨u, List.mem_of_find?_eq_some hfu, ?_, by simp [hfu]⟩
        have := List.find?_some hfu
        simpa using this
  · intro hf
    constructor
    · simp [addParticipantToChat, hf]
    · simp [addParticipantToChat, hf]

/-- Witness for the amended C2 at concrete inputs: a known username is
resolved to the user's id, an unknown one is stored raw, and adding a
nonexistent user id errors without any update. -/
theorem C2_participants_resolution_witness :
    (⟨freshId 9, ["u1", "ghost"], []⟩ : Chat).participants.length =
      (["alice", "ghost"] : List String).length ∧
    (addParticipantToChat ⟨[⟨"u1", "alice"⟩], [], [], 9⟩ false "c1" "nope").1 =
      ⟨[⟨"u1", "alice"⟩], [], [], 9⟩ ∧
    (∃ e, (addParticipantToChat ⟨[⟨"u1", "alice"⟩], [], [], 9⟩ false "c1" "nope").2 =
      .error e) := by
  refine ⟨?_, ?_⟩
  · exact ((C2_participants_resolution ⟨[⟨"u1", "alice"⟩], [], [], 9⟩ ⟨["alice", "ghost"], []⟩
      ⟨freshId 9, ["u1", "ghost"], []⟩ "nope" "c1").1 rfl).1
  · exact (C2_participants_resolution ⟨[⟨"u1", "alice"⟩], [], [], 9⟩ ⟨["alice", "ghost"], []⟩
      ⟨freshId 9, ["u1", "ghost"], []⟩ "nope" "c1").2 rfl

end FakeSO
